import Mathlib

/-!
Shallow embedding of the mini-editor (`kilo.c`) and proofs about it.

Conventions of the embedding:
* C `int` values are modelled as `Int`; byte strings (`char *` plus a length)
  are modelled as `List Int` of byte values.
* The global `struct EditorState` becomes the structure `EditorState`, and
  each C function that mutates it becomes a Lean function returning the new
  state.
* `exit(0)` from the key handler is modelled by an `Option` result (`none`
  means the process exited); the fatal path `die` is modelled by `Except`
  with a `DieExit` record holding the bytes written, the diagnostic and the
  exit code.
* `read` from standard input is modelled by a queue (`List Int`) of the
  bytes that are available before the 100 ms timeout fires; an empty queue
  means the next best-effort read times out.
-/

namespace Kilo

/-- ASCII bytes of a string literal (the sources only use ASCII). -/
def strB (s : String) : List Int :=
  s.toList.map (fun c => (c.toNat : Int))

/-- Decimal rendering of an int, as `%d` prints it. -/
def intB (n : Int) : List Int :=
  strB (toString n)

/-! ## Key codes (`enum Key`, kilo.c lines 266-277) -/

def ESCAPE : Int := 0x1b
def ARROW_LEFT : Int := 0x400
def ARROW_RIGHT : Int := 0x401
def ARROW_UP : Int := 0x402
def ARROW_DOWN : Int := 0x403
def PAGE_UP : Int := 0x404
def PAGE_DOWN : Int := 0x405
def HOME : Int := 0x406
def END : Int := 0x407
def DELETE : Int := 0x408

/-- `CONTROL('q')` = `0x71 & 0x1f`. -/
def CONTROL_Q : Int := 0x11

/-! ## Editor state (`struct EditorState`, kilo.c lines 154-167) -/

structure EditorState where
  rows : Int        -- text-area height: terminal rows minus one after editorInit
  columns : Int
  cx : Int
  cy : Int
  lines : List (List Int)
  lineCount : Int
  lineOffset : Int
  filename : Option (List Int)
  message : Option (List Int)
  messageTime : Int
deriving DecidableEq

/-- `state.lines[n]` (only ever read under the guard `n < lineCount`). -/
def lineAt (s : EditorState) (n : Int) : List Int :=
  s.lines.getD n.toNat []

/-- `editorInit` (kilo.c lines 169-180): zero the cursor and document fields
and record the terminal size, keeping one row for the status bar
(`state.rows -= 1`). -/
def editorInit (termRows termCols : Int) : EditorState :=
  { rows := termRows - 1
    columns := termCols
    cx := 0
    cy := 0
    lines := []
    lineCount := 0
    lineOffset := 0
    filename := none
    message := none
    messageTime := 0 }

/-- `editorSetStatusMessage` (kilo.c lines 182-188). -/
def editorSetStatusMessage (m : List Int) (now : Int) (s : EditorState) : EditorState :=
  { s with message := some m, messageTime := now }

/-- The terminator-stripping loop of `editorOpenFile` (kilo.c lines 206-208):
drop trailing `\n` and `\r` bytes. -/
def stripEol (l : List Int) : List Int :=
  (l.reverse.dropWhile (fun c => c == 10 || c == 13)).reverse

/-- One iteration of the `getline` loop of `editorOpenFile`
(kilo.c lines 205-216): append one stripped line and bump the count. -/
def appendLine (s : EditorState) (raw : List Int) : EditorState :=
  { s with lines := s.lines ++ [stripEol raw], lineCount := s.lineCount + 1 }

/-- The whole `getline` loop of `editorOpenFile`, given the raw lines the
file yields. -/
def editorOpenFileLines (raws : List (List Int)) (s : EditorState) : EditorState :=
  raws.foldl appendLine s

/-- The editor state right after startup (`main`, kilo.c lines 359-368):
`editorInit`, then `editorOpenFile` on a file whose raw lines are `content`,
then the startup status message. -/
def startupState (termRows termCols : Int) (fname : List Int)
    (content : List (List Int)) : EditorState :=
  editorSetStatusMessage (strB "HELP: press CTRL+Q to quit") 0
    (editorOpenFileLines content
      { editorInit termRows termCols with filename := some fname })

/-! ## Key handling (`handleKeyPress`, kilo.c lines 313-355) -/

/-- The non-exiting arms of the `switch` in `handleKeyPress`. -/
def handleKey (c : Int) (s : EditorState) : EditorState :=
  if c = ARROW_LEFT then
    { s with cx := max 0 (s.cx - 1) }
  else if c = ARROW_RIGHT then
    { s with cx := min (s.columns - 1) (s.cx + 1) }
  else if c = ARROW_UP then
    let t := { s with cy := max 0 (s.cy - 1) }
    if t.cy = 0 then { t with lineOffset := max (t.lineOffset - 1) 0 } else t
  else if c = ARROW_DOWN then
    let t := { s with cy := min (s.rows - 1) (s.cy + 1) }
    if t.cy = s.rows - 1 then
      { t with lineOffset := min (t.lineOffset + 1) t.lineCount }
    else t
  else if c = PAGE_UP then
    { s with lineOffset := max (s.lineOffset - s.rows) 0 }
  else if c = PAGE_DOWN then
    { s with lineOffset := min (s.lineOffset + s.rows) s.lineCount }
  else if c = HOME then
    { s with cx := 0 }
  else if c = END then
    { s with cx := s.columns - 1 }
  else
    s

/-- `handleKeyPress` for an already decoded key: `none` models the
`exit(0)` taken on `ESCAPE` and `CONTROL('q')`. -/
def handleKeyPress (c : Int) (s : EditorState) : Option EditorState :=
  if c = ESCAPE ∨ c = CONTROL_Q then none else some (handleKey c s)

/-- The controller loop restricted to its state effect: feed a sequence of
decoded keys to `handleKeyPress`; `none` means the process exited. -/
def run : List Int → EditorState → Option EditorState
  | [], s => some s
  | k :: ks, s =>
    match handleKeyPress k s with
    | none => none
    | some t => run ks t

/-! ## Viewport invariant (claim C1) -/

/-- The viewport invariant, stated over the stored fields (recall that
`s.rows` is the text-area height, one less than the terminal row count). -/
def Inv (s : EditorState) : Prop :=
  0 ≤ s.cx ∧ s.cx < s.columns ∧ 0 ≤ s.cy ∧ s.cy < s.rows ∧
    0 ≤ s.lineOffset ∧ s.lineOffset ≤ s.lineCount

lemma handleKey_frame (c : Int) (s : EditorState) :
    (handleKey c s).lines = s.lines ∧ (handleKey c s).lineCount = s.lineCount ∧
    (handleKey c s).filename = s.filename ∧ (handleKey c s).message = s.message ∧
    (handleKey c s).messageTime = s.messageTime ∧
    (handleKey c s).rows = s.rows ∧ (handleKey c s).columns = s.columns := by
  unfold handleKey
  split_ifs <;> simp [apply_ite]

lemma handleKey_inv (c : Int) (s : EditorState) (h : Inv s) : Inv (handleKey c s) := by
  obtain ⟨h1, h2, h3, h4, h5, h6⟩ := h
  unfold handleKey Inv
  split_ifs <;> (try simp [apply_ite]) <;> (try split_ifs) <;> (try simp) <;> omega

lemma run_preserves (keys : List Int) (s s' : EditorState)
    (h : Inv s) (hrun : run keys s = some s') :
    Inv s' ∧ s'.rows = s.rows ∧ s'.columns = s.columns ∧ s'.lineCount = s.lineCount := by
  induction keys generalizing s with
  | nil =>
    simp only [run, Option.some.injEq] at hrun
    subst hrun; exact ⟨h, rfl, rfl, rfl⟩
  | cons k ks ih =>
    simp only [run] at hrun
    unfold handleKeyPress at hrun
    split_ifs at hrun
    obtain ⟨hi, hr, hc, hl⟩ := ih (handleKey k s) (handleKey_inv k s h) hrun
    obtain ⟨_, fl, _, _, _, fr, fc⟩ := handleKey_frame k s
    exact ⟨hi, by rw [hr, fr], by rw [hc, fc], by rw [hl, fl]⟩

lemma editorOpenFileLines_fields (raws : List (List Int)) (s : EditorState) :
    (editorOpenFileLines raws s).cx = s.cx ∧ (editorOpenFileLines raws s).cy = s.cy ∧
    (editorOpenFileLines raws s).lineOffset = s.lineOffset ∧
    (editorOpenFileLines raws s).rows = s.rows ∧
    (editorOpenFileLines raws s).columns = s.columns ∧
    (editorOpenFileLines raws s).lineCount = s.lineCount + raws.length := by
  induction raws generalizing s with
  | nil => simp [editorOpenFileLines]
  | cons r rs ih =>
    have := ih (appendLine s r)
    simpa [editorOpenFileLines, appendLine, add_assoc, add_comm, add_left_comm] using this

lemma startupState_fields (termRows termCols : Int) (fname : List Int)
    (content : List (List Int)) :
    (startupState termRows termCols fname content).cx = 0 ∧
    (startupState termRows termCols fname content).cy = 0 ∧
    (startupState termRows termCols fname content).lineOffset = 0 ∧
    (startupState termRows termCols fname content).rows = termRows - 1 ∧
    (startupState termRows termCols fname content).columns = termCols ∧
    (startupState termRows termCols fname content).lineCount = (content.length : Int) := by
  have h := editorOpenFileLines_fields content
    { editorInit termRows termCols with filename := some fname }
  simpa [startupState, editorSetStatusMessage, editorInit] using h

/-- C1. For every state reachable by the controller loop from startup
(on a terminal of at least 2 rows and 1 column), for any loaded document
and any sequence of input tokens, the viewport invariant holds:
`0 ≤ cx < columns`, `0 ≤ cy < rows - 1` with `rows` the terminal row count
observed at startup, and `0 ≤ lineOffset ≤ lineCount`. -/
theorem C1_viewport_invariant (termRows termCols : Int) (fname : List Int)
    (content : List (List Int)) (keys : List Int) (s' : EditorState)
    (hrows : 2 ≤ termRows) (hcols : 1 ≤ termCols)
    (hrun : run keys (startupState termRows termCols fname content) = some s') :
    (0 ≤ s'.cx ∧ s'.cx < termCols) ∧ (0 ≤ s'.cy ∧ s'.cy < termRows - 1) ∧
    (0 ≤ s'.lineOffset ∧ s'.lineOffset ≤ s'.lineCount) ∧
    s'.lineCount = (content.length : Int) := by
  obtain ⟨fx, fy, fo, fr, fc, fl⟩ := startupState_fields termRows termCols fname content
  have hinv : Inv (startupState termRows termCols fname content) := by
    unfold Inv
    rw [fx, fy, fo, fr, fc, fl]
    omega
  obtain ⟨hi, hr, hc2, hl⟩ := run_preserves keys _ s' hinv hrun
  obtain ⟨i1, i2, i3, i4, i5, i6⟩ := hi
  rw [hc2, fc] at i2
  rw [hr, fr] at i4
  exact ⟨⟨i1, i2⟩, ⟨i3, i4⟩, ⟨i5, i6⟩, hl.trans fl⟩

/-- The spec's scenario-2 document: `alpha`, `beta`, `gamma`. -/
def threeLines : List (List Int) :=
  [strB "alpha", strB "beta", strB "gamma"]

theorem C1_viewport_invariant_witness :
    (0 ≤ (startupState 10 20 (strB "f") threeLines).cx ∧
      (startupState 10 20 (strB "f") threeLines).cx < 20) ∧
    (0 ≤ (startupState 10 20 (strB "f") threeLines).cy ∧
      (startupState 10 20 (strB "f") threeLines).cy < 10 - 1) ∧
    (0 ≤ (startupState 10 20 (strB "f") threeLines).lineOffset ∧
      (startupState 10 20 (strB "f") threeLines).lineOffset ≤
        (startupState 10 20 (strB "f") threeLines).lineCount) ∧
    (startupState 10 20 (strB "f") threeLines).lineCount = (threeLines.length : Int) :=
  C1_viewport_invariant 10 20 (strB "f") threeLines []
    (startupState 10 20 (strB "f") threeLines) (by norm_num) (by norm_num) rfl

/-! ## Input decoder (`readKey`, kilo.c lines 279-311) -/

/-- The decision tree over the first two bytes of `sequence`
(kilo.c lines 285-308). Byte values: `[` = 91, `O` = 79, `A` = 65,
`B` = 66, `C` = 67, `D` = 68, `F` = 70, `H` = 72, digits `1`..`8` =
49..56. -/
def decodeEscape (s0 s1 : Int) : Int :=
  if s0 = 91 then
    if s1 = 65 then ARROW_UP
    else if s1 = 66 then ARROW_DOWN
    else if s1 = 67 then ARROW_RIGHT
    else if s1 = 68 then ARROW_LEFT
    else if s1 = 70 then END
    else if s1 = 72 then HOME
    else if s1 = 49 then HOME
    else if s1 = 51 then DELETE
    else if s1 = 52 then END
    else if s1 = 53 then PAGE_UP
    else if s1 = 54 then PAGE_DOWN
    else if s1 = 55 then HOME
    else if s1 = 56 then END
    else ESCAPE
  else if s0 = 79 then
    if s1 = 70 then END
    else if s1 = 72 then HOME
    else ESCAPE
  else ESCAPE

/-- `readKey`: `input` is the queue of bytes available before the read
timeout; `none` models blocking forever on an empty queue. After an ESC
byte the code reads up to three more bytes into the stack array
`sequence[3]`, which it never initialises: `g0` and `g1` are the residual
values of `sequence[0]` and `sequence[1]` that are inspected when fewer
bytes arrive (the third array slot is read but never inspected). The
result is the decoded key together with the bytes left in the queue. -/
def readKey (g0 g1 : Int) (input : List Int) : Option (Int × List Int) :=
  match input with
  | [] => none
  | c :: rest =>
    if c = ESCAPE then
      let s0 := rest.getD 0 g0
      let s1 := rest.getD 1 g1
      some (decodeEscape s0 s1, rest.drop 3)
    else
      some (c, rest)

/-- C5, counterexample. Feeding the table entry `ESC [ A` with a further
byte `Z` (90) pending afterwards does yield `ArrowUp`, but the pending
byte is consumed by the unconditional three-byte read: the queue is left
empty, not `[90]` as the claim requires. -/
theorem C5_counterexample :
    readKey 0 0 [27, 91, 65, 90] = some (ARROW_UP, []) ∧
    ¬ readKey 0 0 [27, 91, 65, 90] = some (ARROW_UP, [90]) := by
  decide

/-- C5, amended. For each of the seven four-byte table entries
`ESC [ d ~`, feeding the entry with arbitrary further bytes pending yields
the named token and consumes exactly the entry's four bytes. For each of
the eight three-byte entries `ESC [ L` / `ESC O L`, feeding exactly the
entry (no further bytes pending, so the third read times out) yields the
named token and consumes exactly the entry's three bytes — for any residual
contents of the sequence buffer — while with further bytes pending one
extra byte beyond the entry is consumed (the decision is unchanged). -/
theorem C5_decoder_table (g0 g1 z : Int) (rest : List Int) :
    (readKey g0 g1 (27 :: 91 :: 49 :: 126 :: rest) = some (HOME, rest) ∧
     readKey g0 g1 (27 :: 91 :: 51 :: 126 :: rest) = some (DELETE, rest) ∧
     readKey g0 g1 (27 :: 91 :: 52 :: 126 :: rest) = some (END, rest) ∧
     readKey g0 g1 (27 :: 91 :: 53 :: 126 :: rest) = some (PAGE_UP, rest) ∧
     readKey g0 g1 (27 :: 91 :: 54 :: 126 :: rest) = some (PAGE_DOWN, rest) ∧
     readKey g0 g1 (27 :: 91 :: 55 :: 126 :: rest) = some (HOME, rest) ∧
     readKey g0 g1 (27 :: 91 :: 56 :: 126 :: rest) = some (END, rest)) ∧
    (readKey g0 g1 [27, 91, 65] = some (ARROW_UP, []) ∧
     readKey g0 g1 [27, 91, 66] = some (ARROW_DOWN, []) ∧
     readKey g0 g1 [27, 91, 67] = some (ARROW_RIGHT, []) ∧
     readKey g0 g1 [27, 91, 68] = some (ARROW_LEFT, []) ∧
     readKey g0 g1 [27, 91, 70] = some (END, []) ∧
     readKey g0 g1 [27, 91, 72] = some (HOME, []) ∧
     readKey g0 g1 [27, 79, 70] = some (END, []) ∧
     readKey g0 g1 [27, 79, 72] = some (HOME, [])) ∧
    (readKey g0 g1 (27 :: 91 :: 65 :: z :: rest) = some (ARROW_UP, rest) ∧
     readKey g0 g1 (27 :: 91 :: 66 :: z :: rest) = some (ARROW_DOWN, rest) ∧
     readKey g0 g1 (27 :: 91 :: 67 :: z :: rest) = some (ARROW_RIGHT, rest) ∧
     readKey g0 g1 (27 :: 91 :: 68 :: z :: rest) = some (ARROW_LEFT, rest) ∧
     readKey g0 g1 (27 :: 91 :: 70 :: z :: rest) = some (END, rest) ∧
     readKey g0 g1 (27 :: 91 :: 72 :: z :: rest) = some (HOME, rest) ∧
     readKey g0 g1 (27 :: 79 :: 70 :: z :: rest) = some (END, rest) ∧
     readKey g0 g1 (27 :: 79 :: 72 :: z :: rest) = some (HOME, rest)) := by
  refine ⟨⟨?_, ?_, ?_, ?_, ?_, ?_, ?_⟩, ⟨?_, ?_, ?_, ?_, ?_, ?_, ?_, ?_⟩,
    ⟨?_, ?_, ?_, ?_, ?_, ?_, ?_, ?_⟩⟩ <;>
  simp [readKey, decodeEscape, ESCAPE, ARROW_UP, ARROW_DOWN, ARROW_LEFT, ARROW_RIGHT,
    PAGE_UP, PAGE_DOWN, HOME, END, DELETE]

/-- C6. The incomplete-escape policy is broken by the uninitialised
`sequence` array: when the byte `0x1b` arrives alone and every following
read times out, the code still inspects `sequence[0]` and `sequence[1]`.
With residue `'['`, `'A'` (left over from an earlier arrow-key decode in
the same stack slots) it returns `ArrowUp`, not `Escape`. -/
theorem C6_incomplete_escape_bug :
    readKey 91 65 [27] = some (ARROW_UP, []) ∧ ARROW_UP ≠ ESCAPE := by
  decide

/-! ## Claim C4: ArrowDown on a 10-row, 20-column terminal -/

/-- Scenario 2 of the spec: a 10-row, 20-column terminal with the
three-line document freshly opened (so `state.rows = 9` after
`editorInit` keeps one row for the status bar). -/
def scenario2 : EditorState :=
  startupState 10 20 (strB "fname") threeLines

/-- C4, counterexample. On the 8th ArrowDown press `cy` reaches
`state.rows - 1 = 8`, so the same press already advances `lineOffset`
to 1: after eight presses `lineOffset` is 1, not 0 as the claim states. -/
theorem C4_counterexample :
    (run (List.replicate 8 ARROW_DOWN) scenario2).map
        (fun s => (s.cy, s.lineOffset)) = some (8, 1) ∧
    ¬ (run (List.replicate 8 ARROW_DOWN) scenario2).map
        (fun s => (s.cy, s.lineOffset)) = some (8, 0) := by
  decide

/-- C4, amended. The first 7 presses advance `cy` from 0 to 7 with
`lineOffset` still 0; the 8th press makes `cy = 8` and already advances
`lineOffset` from 0 to 1; the 9th press keeps `cy = 8` and advances
`lineOffset` from 1 to 2, making the visible top line the third document
line, `gamma`. -/
theorem C4_arrow_down_scenario :
    (run (List.replicate 7 ARROW_DOWN) scenario2).map
        (fun s => (s.cy, s.lineOffset)) = some (7, 0) ∧
    (run (List.replicate 8 ARROW_DOWN) scenario2).map
        (fun s => (s.cy, s.lineOffset)) = some (8, 1) ∧
    (run (List.replicate 9 ARROW_DOWN) scenario2).map
        (fun s => (s.cy, s.lineOffset)) = some (8, 2) ∧
    (run (List.replicate 9 ARROW_DOWN) scenario2).map
        (fun s => lineAt s s.lineOffset) = some (strB "gamma") := by
  decide

/-! ## Fatal-error path (`die`, kilo.c lines 16-20) and the back buffer
(kilo.c lines 32-67) -/

/-- The observable effect of `die`: the 7-byte clear-screen-and-home
sequence written to standard output, the diagnostic passed to `perror`,
and the non-zero exit code of `exit(1)`. -/
structure DieExit where
  output : List Int
  diagnostic : String
  exitCode : Int
deriving DecidableEq

/-- `die(s)` writes `"\x1b[2J\x1b[H"`, reports `s` and exits with code 1. -/
def die (s : String) : DieExit :=
  { output := strB "\x1b[2J\x1b[H", diagnostic := s, exitCode := 1 }

/-- `struct BackBuffer`: the data pointer is modelled by the byte list it
holds. -/
structure BackBuffer where
  data : List Int
  length : Nat
  capacity : Nat
deriving DecidableEq

/-- `backBufferAppend` (kilo.c lines 57-63): the guard is
`length + length(new) >= capacity`, and only below that bound are the
bytes copied. -/
def backBufferAppend (b : BackBuffer) (bytes : List Int) : Except DieExit BackBuffer :=
  if b.length + bytes.length ≥ b.capacity then
    .error (die "back buffer capacity exceeded")
  else
    .ok { b with data := b.data ++ bytes, length := b.length + bytes.length }

/-- C7, counterexample. Appending 2 bytes to an empty buffer of capacity 2
satisfies `length + n ≤ capacity`, so the claim requires the copy to
succeed; the code's `>=` guard takes the fatal path instead. -/
theorem C7_counterexample :
    backBufferAppend ⟨[], 0, 2⟩ [7, 8] = .error (die "back buffer capacity exceeded") ∧
    (0 + 2 ≤ 2 ∧ ¬ (0 + 2 > 2)) := by
  constructor
  · rfl
  · omega

/-- C7, amended. The append copies the bytes and increases the length by
`n` exactly when `length + n < capacity` (strictly), and takes the fatal
path (clear-screen output, diagnostic, exit code 1) exactly when
`length + n ≥ capacity`; there is no silent truncation, and on success the
length stays strictly below the capacity. -/
theorem C7_append_behaviour (b : BackBuffer) (bytes : List Int) :
    ((∃ b', backBufferAppend b bytes = .ok b' ∧ b'.data = b.data ++ bytes ∧
        b'.length = b.length + bytes.length ∧ b'.capacity = b.capacity ∧
        b'.length < b'.capacity)
      ↔ b.length + bytes.length < b.capacity) ∧
    (backBufferAppend b bytes = .error (die "back buffer capacity exceeded")
      ↔ b.length + bytes.length ≥ b.capacity) := by
  unfold backBufferAppend
  split_ifs with h
  · constructor
    · constructor
      · rintro ⟨b', hb, -⟩; cases hb
      · omega
    · simp [h]
  · constructor
    · constructor
      · intro _; omega
      · intro _
        exact ⟨_, rfl, rfl, rfl, rfl, by simp; omega⟩
    · constructor
      · intro hc; cases hc
      · omega

/-! ## Setup failures (claim C8) -/

/-- `terminalRawMode` (kilo.c lines 77-89) calls `tcgetattr` and
`tcsetattr` but never inspects their return codes, so no failure of the
raw-mode switch can reach the fatal path; the function always falls
through. The two arguments are the return codes of the two calls. -/
def terminalRawModeResult (tcgetattrRc tcsetattrRc : Int) : Except DieExit Unit :=
  .ok ()

/-- `backBufferInit` (kilo.c lines 45-50) stores the result of `malloc`
without a null check, so allocation failure never reaches the fatal path.
The argument tells whether `malloc` succeeded. -/
def backBufferInitResult (mallocOk : Bool) : Except DieExit Unit :=
  .ok ()

/-- `terminalGetSize` (kilo.c lines 125-145): on ioctl failure it falls
back to the cursor-probe reply; if the probe reply cannot be parsed either,
`sscanf` leaves the outputs untouched (`none`). No branch calls `die`. -/
def terminalGetSizeResult (ioctlResult probeReply : Option (Int × Int)) :
    Except DieExit (Option (Int × Int)) :=
  .ok (match ioctlResult with
       | some rc => some rc
       | none => probeReply)

/-- `editorOpenFile` (kilo.c lines 190-222) restricted to its fatal
behaviour: the filename is recorded, then a failed `fopen` dies; on
success the `getline` loop appends the stripped lines. -/
def editorOpenFile (fname : List Int) (fopenResult : Option (List (List Int)))
    (s : EditorState) : Except DieExit EditorState :=
  match fopenResult with
  | none => .error (die "failed to open file")
  | some raws => .ok (editorOpenFileLines raws { s with filename := some fname })

/-- C8, counterexample. Three of the four setup failures do not exit at
all: a failing raw-mode switch (return codes −1), a failed Frame Buffer
allocation, and a window-size determination where both the ioctl and the
probe fail, each fall through with no diagnostic and no exit. -/
theorem C8_counterexample :
    terminalRawModeResult (-1) (-1) = .ok () ∧
    backBufferInitResult false = .ok () ∧
    terminalGetSizeResult none none = .ok none ∧
    (∀ d : DieExit, terminalRawModeResult (-1) (-1) ≠ .error d) := by
  refine ⟨rfl, rfl, rfl, ?_⟩
  intro d h
  cases h

/-- C8, amended. Of the four setup failures only a failed file open takes
the fatal path: it prints the diagnostic and exits with code 1 after
emitting the clear-screen-and-home sequence. The raw-mode switch and the
Frame Buffer allocation results are never checked, and a failed window-size
ioctl falls back to the cursor probe; none of those three can exit. -/
theorem C8_setup_failures (fname : List Int) (s : EditorState)
    (getRc setRc : Int) (mallocOk : Bool) (ioctlResult probeReply : Option (Int × Int)) :
    editorOpenFile fname none s = .error (die "failed to open file") ∧
    (die "failed to open file").exitCode = 1 ∧
    (die "failed to open file").output = strB "\x1b[2J\x1b[H" ∧
    terminalRawModeResult getRc setRc = .ok () ∧
    backBufferInitResult mallocOk = .ok () ∧
    (∃ sz, terminalGetSizeResult ioctlResult probeReply = .ok sz) :=
  ⟨rfl, rfl, rfl, rfl, rfl, _, rfl⟩

/-! ## Claim C10: frame effect of key handling -/

/-- C10. Handling one key press (when it does not exit) modifies at most
`cx`, `cy` and `lineOffset`: the line array, line count, filename, status
message and its timestamp, and the terminal dimensions are untouched; and
`Delete` or any ordinary byte (value below the first enum token 0x400)
other than Escape and Ctrl-Q leaves the entire state unchanged. -/
theorem C10_key_frame_effect (c : Int) (s s' : EditorState)
    (h : handleKeyPress c s = some s') :
    s'.lines = s.lines ∧ s'.lineCount = s.lineCount ∧ s'.filename = s.filename ∧
    s'.message = s.message ∧ s'.messageTime = s.messageTime ∧
    s'.rows = s.rows ∧ s'.columns = s.columns ∧
    ((c = DELETE ∨ (c < 0x400 ∧ c ≠ ESCAPE ∧ c ≠ CONTROL_Q)) → s' = s) := by
  unfold handleKeyPress at h
  split_ifs at h
  obtain rfl : handleKey c s = s' := by simpa using h
  obtain ⟨f1, f2, f3, f4, f5, f6, f7⟩ := handleKey_frame c s
  refine ⟨f1, f2, f3, f4, f5, f6, f7, ?_⟩
  intro hc
  have eL : ARROW_LEFT = 1024 := rfl
  have eR : ARROW_RIGHT = 1025 := rfl
  have eU : ARROW_UP = 1026 := rfl
  have eD : ARROW_DOWN = 1027 := rfl
  have ePU : PAGE_UP = 1028 := rfl
  have ePD : PAGE_DOWN = 1029 := rfl
  have eH : HOME = 1030 := rfl
  have eE : END = 1031 := rfl
  have eDel : DELETE = 1032 := rfl
  have eEsc : ESCAPE = 27 := rfl
  have eQ : CONTROL_Q = 17 := rfl
  unfold handleKey
  split_ifs <;> first | rfl | (exfalso; omega)

theorem C10_key_frame_effect_witness :
    (editorInit 10 20).lines = (editorInit 10 20).lines ∧
    (editorInit 10 20).lineCount = (editorInit 10 20).lineCount ∧
    (editorInit 10 20).filename = (editorInit 10 20).filename ∧
    (editorInit 10 20).message = (editorInit 10 20).message ∧
    (editorInit 10 20).messageTime = (editorInit 10 20).messageTime ∧
    (editorInit 10 20).rows = (editorInit 10 20).rows ∧
    (editorInit 10 20).columns = (editorInit 10 20).columns ∧
    (((120 : Int) = DELETE ∨ ((120 : Int) < 0x400 ∧ (120 : Int) ≠ ESCAPE ∧
        (120 : Int) ≠ CONTROL_Q)) → editorInit 10 20 = editorInit 10 20) :=
  C10_key_frame_effect 120 (editorInit 10 20) (editorInit 10 20) (by decide)

/-! ## Renderer (`editorDrawLines`, kilo.c lines 224-262) -/

/-- One iteration of the text-row loop (kilo.c lines 225-235):
clear-to-end-of-line, then the document line truncated to
`min(line->length, columns - 1)` bytes if `lineNumber < lineCount`, a
tilde otherwise, then `"\r\n"`. -/
def drawRow (s : EditorState) (lineNumber : Int) : List Int :=
  strB "\x1b[K" ++
    (if lineNumber < s.lineCount then
       (lineAt s lineNumber).take
         (min ((lineAt s lineNumber).length : Int) (s.columns - 1)).toNat
     else strB "~") ++
  strB "\r\n"

/-- The whole text-row loop: rows `lineOffset + 0, …, lineOffset + n - 1`
appended in order. -/
def drawTextRows (s : EditorState) : Nat → List Int
  | 0 => []
  | n + 1 => drawTextRows s n ++ drawRow s (s.lineOffset + (n : Int))

/-- The full status string handed to `snprintf`
(kilo.c lines 241-245): `%.20s` truncates the filename (or `"[no file]"`)
to 20 bytes in isolation. -/
def statusFull (s : EditorState) : List Int :=
  (s.filename.getD (strB "[no file]")).take 20 ++ strB " - " ++
    intB s.lineCount ++ strB " lines    line: " ++
    intB (s.lineOffset + s.cy) ++ strB "  column: " ++ intB s.cx

/-- The bytes appended for the status text when no message is active
(kilo.c lines 241-247). `snprintf` into the `char status[columns]` buffer
stores at most `columns - 1` characters plus a terminating NUL but returns
the untruncated length; the code then appends
`min(returned, columns)` bytes of the buffer, so a truncated status drags
the NUL byte into the frame. -/
def statusTextNoMsg (s : EditorState) : List Int :=
  (statusFull s).take (s.columns - 1).toNat ++ [0] |>.take
    (min ((statusFull s).length : Int) s.columns).toNat

/-- `List.replicate` of spaces: the padding loop (kilo.c lines 257-260). -/
def spaces (n : Nat) : List Int :=
  List.replicate n 32

/-- The status row (kilo.c lines 237-261): reverse video on, the status
text (either branch) padded with spaces to `columns`, reverse video off. -/
def statusBar (s : EditorState) : List Int :=
  strB "\x1b[7m" ++
    (match s.message with
     | none =>
         statusTextNoMsg s ++
           spaces (s.columns - min ((statusFull s).length : Int) s.columns).toNat
     | some m =>
         m.take (min (m.length : Int) s.columns).toNat ++
           spaces (s.columns - min ((m.length : Int)) s.columns).toNat) ++
  strB "\x1b[m"

/-- The message-expiry side effect of the status row
(kilo.c lines 251-255): inside the message branch only, a message older
than 5 seconds is cleared after being drawn. -/
def expireMessage (now : Int) (s : EditorState) : EditorState :=
  match s.message with
  | none => s
  | some _ =>
      if now - s.messageTime > 5 then { s with message := none, messageTime := 0 }
      else s

/-- `editorDrawLines`: the bytes appended to the frame buffer, in order,
together with the state after the call. -/
def editorDrawLines (now : Int) (s : EditorState) : List Int × EditorState :=
  (drawTextRows s s.rows.toNat ++ statusBar s, expireMessage now s)

/-- The shape of one text row as the claim states it: a
clear-to-end-of-line sequence, then the document line at index
`lineOffset + y` truncated to at most `columns - 1` bytes if that index is
below `lineCount` and a single tilde otherwise, terminated by CRLF. -/
def rowSpec (s : EditorState) (y : Nat) : List Int :=
  strB "\x1b[K" ++
    (if s.lineOffset + (y : Int) < s.lineCount then
       (lineAt s (s.lineOffset + (y : Int))).take (s.columns - 1).toNat
     else strB "~") ++
  strB "\r\n"

lemma take_min_length (l : List Int) (c : Int) :
    l.take (min (l.length : Int) c).toNat = l.take c.toNat := by
  rcases le_total (l.length : Int) c with h | h
  · rw [min_eq_left h, Int.toNat_natCast]
    rw [List.take_of_length_le (le_refl _), List.take_of_length_le (by omega)]
  · rw [min_eq_right h]

lemma drawRow_eq_rowSpec (s : EditorState) (y : Nat) :
    drawRow s (s.lineOffset + (y : Int)) = rowSpec s y := by
  unfold drawRow rowSpec
  rw [take_min_length]

lemma drawTextRows_eq_join (s : EditorState) (n : Nat) :
    drawTextRows s n = List.flatten ((List.range n).map (rowSpec s)) := by
  induction n with
  | zero => rfl
  | succ k ih =>
    rw [List.range_succ, List.map_append, List.flatten_append]
    simp only [drawTextRows, ih, List.map_cons, List.map_nil,
      List.flatten_cons, List.flatten_nil, List.append_nil, drawRow_eq_rowSpec]

/-- C3. For every state satisfying the viewport invariant (on a terminal
with `R` rows, so the stored text-area height is `R - 1`), one rendered
frame appends, in order: for each screen row `y` in `[0, R-1)` a
clear-to-end-of-line, then the document line at `lineOffset + y` truncated
to at most `columns - 1` bytes if that index is below `lineCount` and a
single tilde otherwise, each terminated by CRLF — exactly `R - 1` text
rows — followed by exactly one status row. -/
theorem C3_frame_shape (s : EditorState) (now R : Int)
    (hR : s.rows = R - 1)
    (hcx0 : 0 ≤ s.cx) (hcx : s.cx < s.columns)
    (hcy0 : 0 ≤ s.cy) (hcy : s.cy < s.rows)
    (hlo0 : 0 ≤ s.lineOffset) (hlo : s.lineOffset ≤ s.lineCount) :
    (editorDrawLines now s).1 =
      List.flatten ((List.range (R - 1).toNat).map (rowSpec s)) ++ statusBar s ∧
    ((List.range (R - 1).toNat).map (rowSpec s)).length = (R - 1).toNat := by
  constructor
  · unfold editorDrawLines
    rw [drawTextRows_eq_join, hR]
  · simp

theorem C3_frame_shape_witness :
    (editorDrawLines 0 scenario2).1 =
      List.flatten ((List.range ((10 : Int) - 1).toNat).map (rowSpec scenario2)) ++
        statusBar scenario2 ∧
    ((List.range ((10 : Int) - 1).toNat).map (rowSpec scenario2)).length =
      ((10 : Int) - 1).toNat :=
  C3_frame_shape scenario2 0 10 (by decide) (by decide) (by decide) (by decide)
    (by decide) (by decide) (by decide)

/-! ## Claim C9: status row content -/

/-- Scenario 1 of the spec after the startup message expires: a 10-row,
20-column terminal, no file loaded, no active status message. -/
def scenario1 : EditorState :=
  editorInit 10 20

/-- C9. The full status string here is
`"[no file] - 0 lines    line: 0  column: 0"` (41 bytes), so `snprintf`
into the 20-byte `status` buffer stores only its first 19 characters plus
a terminating NUL, yet the code appends `min(41, columns) = 20` bytes of
the buffer: the 20th byte appended is the NUL, not the 20th character of
the status string as the claim requires. -/
theorem C9_status_row_nul_byte :
    statusFull scenario1 = strB "[no file] - 0 lines    line: 0  column: 0" ∧
    statusTextNoMsg scenario1 = strB "[no file] - 0 lines" ++ [0] ∧
    statusTextNoMsg scenario1 ≠ (statusFull scenario1).take 20 := by
  decide

/-! ## Terminal attributes (claim C2; kilo.c lines 71-89 and the at-exit
hooks of `backBufferInit`) -/

/-- The fields of `struct termios` the program touches
(`c_cc[VMIN]`/`c_cc[VTIME]` as the two control characters it sets). -/
structure Termios where
  c_iflag : Nat
  c_oflag : Nat
  c_cflag : Nat
  c_lflag : Nat
  c_vmin : Nat
  c_vtime : Nat
deriving DecidableEq

def BRKINT : Nat := 0x02
def ICRNL : Nat := 0x100
def INPCK : Nat := 0x10
def ISTRIP : Nat := 0x20
def IXON : Nat := 0x400
def OPOST : Nat := 0x01
def CS8 : Nat := 0x30
def ECHO_FLAG : Nat := 0x08
def ICANON : Nat := 0x02
def IEXTEN : Nat := 0x8000
def ISIG : Nat := 0x01

/-- `flags & ~mask` on a 32-bit `tcflag_t`. -/
def clearFlags (flags mask : Nat) : Nat :=
  flags &&& (0xFFFFFFFF ^^^ mask)

/-- The attribute transformation of `terminalRawMode`
(kilo.c lines 81-87). -/
def rawMode (m : Termios) : Termios :=
  { c_iflag := clearFlags m.c_iflag (BRKINT ||| ICRNL ||| INPCK ||| ISTRIP ||| IXON)
    c_oflag := clearFlags m.c_oflag OPOST
    c_cflag := m.c_cflag ||| CS8
    c_lflag := clearFlags m.c_lflag (ECHO_FLAG ||| ICANON ||| IEXTEN ||| ISIG)
    c_vmin := 0
    c_vtime := 1 }

/-- The at-exit hooks the program registers. -/
inductive AtexitHook where
  | terminalResetHook
  | backBufferDestroyHook
deriving DecidableEq

/-- The process-global state C2 is about: the terminal's current
attributes, the captured `originalTerminalMode`, and the `atexit` stack
(most recently registered first, as `exit` runs them in reverse order of
registration). -/
structure SysState where
  termMode : Termios
  originalTerminalMode : Option Termios
  hooks : List AtexitHook
deriving DecidableEq

/-- `terminalReset` (kilo.c lines 73-75): `tcsetattr` back to the captured
attributes (a no-op only if nothing was ever captured). -/
def terminalReset (s : SysState) : SysState :=
  match s.originalTerminalMode with
  | some m => { s with termMode := m }
  | none => s

/-- `terminalRawMode` (kilo.c lines 77-89): capture the current attributes
with `tcgetattr`, register the restore hook with `atexit`, then install
the transformed attributes with `tcsetattr`. -/
def terminalRawMode (s : SysState) : SysState :=
  let captured := s.termMode
  { termMode := rawMode captured
    originalTerminalMode := some captured
    hooks := .terminalResetHook :: s.hooks }

def runHook (s : SysState) (h : AtexitHook) : SysState :=
  match h with
  | .terminalResetHook => terminalReset s
  | .backBufferDestroyHook => s

/-- `exit` (any code, 0 or 1): run the registered at-exit hooks, most
recently registered first. -/
def processExit (s : SysState) : SysState :=
  s.hooks.foldl runHook s

/-- The system state after `main`'s setup (kilo.c lines 360-365):
`terminalRawMode`, then `backBufferInit`'s `atexit(backBufferDestroy)`. -/
def startupSys (m0 : Termios) : SysState :=
  let s := terminalRawMode { termMode := m0, originalTerminalMode := none, hooks := [] }
  { s with hooks := .backBufferDestroyHook :: s.hooks }

/-- C2. Both exit paths — normal quit via Escape/Ctrl-Q (`exit(0)`) and
the fatal path of `die` (`exit(1)`) — run the same at-exit hooks, and the
`terminalReset` hook reinstalls exactly the attributes captured before raw
mode was entered: whatever the current attributes `cur` are at exit time,
the terminal mode observed after the process exits equals the mode `m0`
observed at startup. -/
theorem C2_terminal_restored (m0 cur : Termios) :
    (processExit { startupSys m0 with termMode := cur }).termMode = m0 ∧
    (processExit (startupSys m0)).termMode = m0 ∧
    (startupSys m0).originalTerminalMode = some m0 :=
  ⟨rfl, rfl, rfl⟩

end Kilo
